import Mathlib

/-!
Verification of the OCSP-server persistence and status-resolution core
(`src/database.rs`, `src/struct.rs`).

The embedding translates the two `Database` implementations
(`MySqlDatabase` and `PostgresDatabase`) into pure Lean functions.
Database state is passed explicitly: the certificate table is a list of
rows keyed by the serial string, and schema state is a record of which
tables and enumerated types exist.  The nondeterministic wall clock
(`GeneralizedTime::now()`) is passed as an explicit `now` argument.
Fallible operations return `Except String _`; a Rust `unwrap()` panic is
modelled as an `Except.error`.
-/

/-- Revocation reason codes of the external ocsp crate (`CrlReason`),
as used by `database.rs`. -/
inductive CrlReason where
  | ocspRevokeUnspecified
  | ocspRevokeKeyCompromise
  | ocspRevokeCaCompromise
  | ocspRevokeAffChanged
  | ocspRevokeSuperseded
  | ocspRevokeCessOperation
  | ocspRevokeCertHold
  | ocspRevokePrivWithdrawn
  | ocspRevokeAaCompromise
  deriving DecidableEq, Repr

/-- Status codes of the external ocsp crate (`CertStatusCode`). -/
inductive CertStatusCode where
  | good
  | revoked
  | unknown
  deriving DecidableEq, Repr

/-- Protocol time representation of the external ocsp crate
(`GeneralizedTime`): year, month, day, hour, minute, second. -/
structure GeneralizedTime where
  year : Int
  month : Nat
  day : Nat
  hour : Nat
  minute : Nat
  second : Nat
  deriving DecidableEq, Repr

/-- Proleptic-Gregorian leap-year test (chrono semantics, used by the
ocsp crate to validate dates). -/
def isLeapYear (y : Int) : Bool :=
  (y % 4 == 0 && y % 100 != 0) || (y % 400 == 0)

/-- Number of days in a given month of a given year (0 for an invalid
month number). -/
def daysInMonth (y : Int) (m : Nat) : Nat :=
  match m with
  | 1 => 31
  | 2 => if isLeapYear y then 29 else 28
  | 3 => 31
  | 4 => 30
  | 5 => 31
  | 6 => 30
  | 7 => 31
  | 8 => 31
  | 9 => 30
  | 10 => 31
  | 11 => 30
  | 12 => 31
  | _ => 0

/-- `GeneralizedTime::new(year, month, day, hour, min, sec)` of the ocsp
crate: validates the calendar date and the time of day (via chrono
`NaiveDate::from_ymd_opt` / `and_hms_opt`) and returns the assembled
value, or an error (here `none`) if the date or time is invalid. -/
def GeneralizedTime.new (year : Int) (month day hour min sec : Nat) :
    Option GeneralizedTime :=
  if 1 ≤ month ∧ month ≤ 12 ∧ 1 ≤ day ∧ day ≤ daysInMonth year month
      ∧ hour < 24 ∧ min < 60 ∧ sec < 60 then
    some ⟨year, month, day, hour, min, sec⟩
  else
    none

/-- `RevokedInfo` of the ocsp crate: revocation time plus optional
reason. -/
structure RevokedInfo where
  revocation_time : GeneralizedTime
  revocation_reason : Option CrlReason
  deriving DecidableEq, Repr

/-- `RevokedInfo::new`. -/
def RevokedInfo.new (t : GeneralizedTime) (r : Option CrlReason) : RevokedInfo :=
  ⟨t, r⟩

/-- `CertStatus` of the ocsp crate (imported as `OcspCertStatus` in
`database.rs`): a status code plus optional revocation info. -/
structure OcspCertStatus where
  code : CertStatusCode
  revoke_info : Option RevokedInfo
  deriving DecidableEq, Repr

/-- `OcspCertStatus::new`. -/
def OcspCertStatus.new (c : CertStatusCode) (i : Option RevokedInfo) : OcspCertStatus :=
  ⟨c, i⟩

/-- The `mysql::Value` variants relevant to `check_cert`: a `Date`
value carries year/month/day/hour/min/sec/microseconds; every other
variant (NULL, Bytes, Int, ...) is collapsed into `other`, matched by
the wildcard arm at `database.rs:113`. -/
inductive MysqlValue where
  | date (year month day hour min sec ms : Nat)
  | other
  deriving DecidableEq, Repr

/-- `Certinfo` from `struct.rs:90`: the three columns projected by the
MySQL lookup. -/
structure Certinfo where
  status : String
  revocation_time : Option MysqlValue
  revocation_reason : Option String
  deriving DecidableEq, Repr

/-- The inline revocation-reason match of `MySqlDatabase::check_cert`
(`database.rs:117-127`), extracted as a function of the (defaulted)
reason string. -/
def mysqlReasonOf (motif : String) : CrlReason :=
  match motif with
  | "key_compromise" => CrlReason.ocspRevokeKeyCompromise
  | "ca_compromise" => CrlReason.ocspRevokeCaCompromise
  | "affiliation_changed" => CrlReason.ocspRevokeAffChanged
  | "superseded" => CrlReason.ocspRevokeSuperseded
  | "cessation_of_operation" => CrlReason.ocspRevokeCessOperation
  | "certificate_hold" => CrlReason.ocspRevokeCertHold
  | "privilege_withdrawn" => CrlReason.ocspRevokePrivWithdrawn
  | "aa_compromise" => CrlReason.ocspRevokeAaCompromise
  | _ => CrlReason.ocspRevokeUnspecified

/-- A MySQL certificate table: rows of `list_certs`, keyed by
`cert_num`, each carrying the three projected columns. -/
abbrev MySqlCerts := List (String × Certinfo)

/-- The parameterized SELECT of `MySqlDatabase::check_cert`
(`database.rs:73-81`): the projected `Certinfo` of every row of
`list_certs` whose `cert_num` equals `certnum` (the source binds this
to the local `status`). -/
def mysqlSelect (db : MySqlCerts) (certnum : String) : List Certinfo :=
  (db.filter (fun r => r.1 == certnum)).map Prod.snd

/-- `MySqlDatabase::check_cert` (`database.rs:66-136`), after a
successful connection.  `db` is the `list_certs` table, `certnum` and
`revoked` are the arguments, `now` is the value
`GeneralizedTime::now()` would produce at the call.  The parameterized
SELECT is the rows whose `cert_num` equals `certnum`; `status.is_empty()`
and `status[0]` become the list match. -/
def mysqlCheckCert (db : MySqlCerts) (certnum : String) (revoked : Bool)
    (now : GeneralizedTime) : Except String OcspCertStatus :=
  match mysqlSelect db certnum with
  | [] =>
      if !revoked then
        Except.ok (OcspCertStatus.new CertStatusCode.unknown none)
      else
        match GeneralizedTime.new 1970 1 1 0 0 0 with
        | none => Except.error "unwrap of GeneralizedTime::new failed"
        | some epoch =>
            Except.ok (OcspCertStatus.new CertStatusCode.revoked
              (some (RevokedInfo.new epoch (some CrlReason.ocspRevokeCertHold))))
  | statut :: _ =>
      if statut.status == "Revoked" then
        let time := now
        let timenew : Option GeneralizedTime :=
          match statut.revocation_time with
          | some (MysqlValue.date year month day hour min sec _ms) =>
              GeneralizedTime.new (Int.ofNat year) month day hour min sec
          | _ => some time
        let time := timenew.getD time
        let motif := statut.revocation_reason.getD ""
        let motif : CrlReason := mysqlReasonOf motif
        Except.ok (OcspCertStatus.new CertStatusCode.revoked
          (some (RevokedInfo.new time (some motif))))
      else
        Except.ok (OcspCertStatus.new CertStatusCode.good none)

/-- A chrono `NaiveDateTime` as read from the PostgreSQL
`revocation_time` column: the six accessors used at
`database.rs:249-254`. -/
structure NaiveDateTime where
  year : Int
  month : Nat
  day : Nat
  hour : Nat
  minute : Nat
  second : Nat
  deriving DecidableEq, Repr

/-- A row of `ocsp_list_certs` as projected by the PostgreSQL lookup:
positional columns 0 (status), 1 (revocation_time) and
2 (revocation_reason). -/
structure PgCertRow where
  status : String
  revocation_time : Option NaiveDateTime
  revocation_reason : Option String
  deriving DecidableEq, Repr

/-- The inline revocation-reason match of
`PostgresDatabase::check_cert` (`database.rs:263-273`), extracted as a
function of the (defaulted) reason string. -/
def pgReasonOf (motif : String) : CrlReason :=
  match motif with
  | "key_compromise" => CrlReason.ocspRevokeKeyCompromise
  | "ca_compromise" => CrlReason.ocspRevokeCaCompromise
  | "affiliation_changed" => CrlReason.ocspRevokeAffChanged
  | "superseded" => CrlReason.ocspRevokeSuperseded
  | "cessation_of_operation" => CrlReason.ocspRevokeCessOperation
  | "certificate_hold" => CrlReason.ocspRevokeCertHold
  | "privilege_withdrawn" => CrlReason.ocspRevokePrivWithdrawn
  | "aa_compromise" => CrlReason.ocspRevokeAaCompromise
  | _ => CrlReason.ocspRevokeUnspecified

/-- A PostgreSQL certificate table: rows of `ocsp_list_certs`, keyed by
`cert_num`. -/
abbrev PgCerts := List (String × PgCertRow)

/-- The parameterized query of `PostgresDatabase::check_cert`
(`database.rs:219-224`): the projected row of every row of
`ocsp_list_certs` whose `cert_num` equals `certnum` (the source binds
this to the local `rows`). -/
def pgSelect (db : PgCerts) (certnum : String) : List PgCertRow :=
  (db.filter (fun r => r.1 == certnum)).map Prod.snd

/-- `PostgresDatabase::check_cert` (`database.rs:211-283`), after a
successful connection.  The parameterized query selects the rows whose
`cert_num` equals `certnum`; `rows.is_empty()` and `&rows[0]` become
the list match. -/
def pgCheckCert (db : PgCerts) (certnum : String) (revoked : Bool)
    (now : GeneralizedTime) : Except String OcspCertStatus :=
  match pgSelect db certnum with
  | [] =>
      if !revoked then
        Except.ok (OcspCertStatus.new CertStatusCode.unknown none)
      else
        match GeneralizedTime.new 1970 1 1 0 0 0 with
        | none => Except.error "unwrap of GeneralizedTime::new failed"
        | some epoch =>
            Except.ok (OcspCertStatus.new CertStatusCode.revoked
              (some (RevokedInfo.new epoch (some CrlReason.ocspRevokeCertHold))))
  | row :: _ =>
      if row.status == "Revoked" then
        let time := now
        let time : GeneralizedTime :=
          match row.revocation_time with
          | some rt =>
              (GeneralizedTime.new rt.year rt.month rt.day rt.hour rt.minute rt.second).getD time
          | none => time
        let motif := row.revocation_reason.getD ""
        let motif : CrlReason := pgReasonOf motif
        Except.ok (OcspCertStatus.new CertStatusCode.revoked
          (some (RevokedInfo.new time (some motif))))
      else
        Except.ok (OcspCertStatus.new CertStatusCode.good none)

/-- Schema-level state of the MySQL database: which tables exist
(`SHOW TABLES`), plus the contents of `list_certs` when present. -/
structure MySqlState where
  tables : List String
  certs : MySqlCerts

/-- `MySqlDatabase::create_tables_if_needed` (`database.rs:138-166`),
after a successful connection.  `SHOW TABLES LIKE 'list_certs'` is the
filter of the table-name list; `CREATE TABLE` appends the table name
(MySQL `CREATE TABLE` without IF NOT EXISTS errors if the table already
exists, but that branch is unreachable behind the existence check). -/
def mysqlCreateTablesIfNeeded (create_table : Bool) (st : MySqlState) :
    Except String Unit × MySqlState :=
  if !create_table then
    (Except.ok (), st)
  else
    let tables := st.tables.filter (fun t => t == "list_certs")
    if !tables.isEmpty then
      (Except.ok (), st)
    else
      if st.tables.contains "list_certs" then
        (Except.error "table list_certs already exists", st)
      else
        (Except.ok (), { st with tables := st.tables ++ ["list_certs"] })

/-- Schema-level state of the PostgreSQL database: tables of the public
schema (`information_schema.tables`), type names (`pg_type`), and the
contents of `ocsp_list_certs` when present. -/
structure PgState where
  tables : List String
  types : List String
  certs : PgCerts

/-- `PostgresDatabase::create_tables_if_needed` (`database.rs:285-364`),
after a successful connection.  The catalog existence queries become
list membership.  The `batch_execute` creating the two enumerated types
runs both statements in one implicit transaction (PostgreSQL simple
query protocol), so it errors - rolling back - if either type already
exists.  The `CREATE TABLE` statement errors if the table exists
(unreachable behind the existence check) and also if a referenced
column type is missing: its columns use `cert_status` and
`revocation_reason_enum`, so it fails when either type does not exist
(the already-sent type batch stays committed in that case, being a
separate protocol message). -/
def pgCreateTablesIfNeeded (create_table : Bool) (st : PgState) :
    Except String Unit × PgState :=
  if !create_table then
    (Except.ok (), st)
  else
    let table_exists := st.tables.contains "ocsp_list_certs"
    if table_exists then
      (Except.ok (), st)
    else
      let types_exist := st.types.contains "cert_status"
      let afterTypes : Except String PgState :=
        if !types_exist then
          if st.types.contains "cert_status" || st.types.contains "revocation_reason_enum" then
            Except.error "type already exists"
          else
            Except.ok { st with types := st.types ++ ["cert_status", "revocation_reason_enum"] }
        else
          Except.ok st
      match afterTypes with
      | Except.error e => (Except.error e, st)
      | Except.ok st2 =>
          if st2.tables.contains "ocsp_list_certs" then
            (Except.error "table ocsp_list_certs already exists", st2)
          else
            if !(st2.types.contains "cert_status" && st2.types.contains "revocation_reason_enum") then
              (Except.error "referenced type does not exist", st2)
            else
              (Except.ok (), { st2 with tables := st2.tables ++ ["ocsp_list_certs"] })

/-- The SQL statements `MySqlDatabase` can issue, by call site. -/
inductive MySqlStmt where
  | selectCert (certnum : String)
  | showTablesLike (pat : String)
  | createTableListCerts
  deriving DecidableEq, Repr

/-- Whether a MySQL statement writes to the database (DDL); the two
queries are pure reads. -/
def MySqlStmt.isWriteStmt : MySqlStmt → Bool
  | MySqlStmt.createTableListCerts => true
  | _ => false

/-- Effect of one MySQL statement on the schema state: the SELECT and
SHOW TABLES read only; CREATE TABLE registers the table. -/
def mysqlRunStmt (st : MySqlState) : MySqlStmt → MySqlState
  | MySqlStmt.createTableListCerts => { st with tables := st.tables ++ ["list_certs"] }
  | _ => st

/-- The statement trace of `MySqlDatabase::check_cert`
(`database.rs:73-81`): a single parameterized SELECT. -/
def mysqlCheckCertStmts (certnum : String) : List MySqlStmt :=
  [MySqlStmt.selectCert certnum]

/-- The SQL statements `PostgresDatabase` can issue, by call site. -/
inductive PgStmt where
  | selectCert (certnum : String)
  | selectTableExists
  | selectTypeExists
  | createTypesBatch
  | createTableOcspListCerts
  deriving DecidableEq, Repr

/-- Whether a PostgreSQL statement writes to the database (DDL); the
three queries are pure reads. -/
def PgStmt.isWriteStmt : PgStmt → Bool
  | PgStmt.createTypesBatch => true
  | PgStmt.createTableOcspListCerts => true
  | _ => false

/-- Effect of one PostgreSQL statement on the schema state: the SELECT
queries read only; the DDL statements register their objects. -/
def pgRunStmt (st : PgState) : PgStmt → PgState
  | PgStmt.createTypesBatch =>
      { st with types := st.types ++ ["cert_status", "revocation_reason_enum"] }
  | PgStmt.createTableOcspListCerts => { st with tables := st.tables ++ ["ocsp_list_certs"] }
  | _ => st

/-- The statement trace of `PostgresDatabase::check_cert`
(`database.rs:219-224`): a single parameterized query. -/
def pgCheckCertStmts (certnum : String) : List PgStmt :=
  [PgStmt.selectCert certnum]

/-- The eight named arm literals of the revocation-reason match
(`database.rs:118-125` and `database.rs:264-271`). -/
def reasonStrings : List String :=
  ["key_compromise", "ca_compromise", "affiliation_changed", "superseded",
   "cessation_of_operation", "certificate_hold", "privilege_withdrawn", "aa_compromise"]

/-- A 51-character serial, one character beyond the `varchar(50)` /
`VARCHAR(50)` width of the `cert_num` column. -/
def longSerial : String :=
  "AAAAAAAAAAAAAAAAAAAAAAAAAAAAAAAAAAAAAAAAAAAAAAAAAAB"

/-- `longSerial` truncated to the 50-character column width. -/
def longSerialTrunc : String :=
  "AAAAAAAAAAAAAAAAAAAAAAAAAAAAAAAAAAAAAAAAAAAAAAAAAA"

/-! ## Helper lemmas -/

/-- `GeneralizedTime::new` only ever assembles exactly its inputs: a
successful conversion returns the input fields unchanged. -/
theorem gtNew_eq_some (y : Int) (mo d h mi s : Nat) (t : GeneralizedTime)
    (ht : GeneralizedTime.new y mo d h mi s = some t) :
    t = ⟨y, mo, d, h, mi, s⟩ := by
  unfold GeneralizedTime.new at ht
  split at ht
  · injection ht with h
    exact h.symm
  · exact Option.noConfusion ht

/-- If no row of `list_certs` is keyed by `certnum`, the MySQL SELECT
returns no rows. -/
theorem mysqlSelect_eq_nil_of_absent (db : MySqlCerts) (certnum : String)
    (h : ∀ p ∈ db, p.1 ≠ certnum) : mysqlSelect db certnum = [] := by
  unfold mysqlSelect
  have hf : db.filter (fun r => r.1 == certnum) = [] := by
    induction db with
    | nil => rfl
    | cons a tl ih =>
        have ha : (a.1 == certnum) = false :=
          beq_eq_false_iff_ne.mpr (h a (List.mem_cons_self a tl))
        rw [List.filter_cons, ha]
        simp only [Bool.false_eq_true, if_false]
        exact ih (fun p hp => h p (List.mem_cons_of_mem a hp))
  rw [hf]
  rfl

/-- If no row of `ocsp_list_certs` is keyed by `certnum`, the
PostgreSQL query returns no rows. -/
theorem pgSelect_eq_nil_of_absent (db : PgCerts) (certnum : String)
    (h : ∀ p ∈ db, p.1 ≠ certnum) : pgSelect db certnum = [] := by
  unfold pgSelect
  have hf : db.filter (fun r => r.1 == certnum) = [] := by
    induction db with
    | nil => rfl
    | cons a tl ih =>
        have ha : (a.1 == certnum) = false :=
          beq_eq_false_iff_ne.mpr (h a (List.mem_cons_self a tl))
        rw [List.filter_cons, ha]
        simp only [Bool.false_eq_true, if_false]
        exact ih (fun p hp => h p (List.mem_cons_of_mem a hp))
  rw [hf]
  rfl

/-! ## Claims -/

/-- C1: for every certificate serial with no stored record,
`check_cert` with `assume_revoked_if_absent = true` returns Revoked
with timestamp exactly 1970-01-01T00:00:00Z and reason
certificate-hold, on both the MySQL and the PostgreSQL backend. -/
theorem checkCert_absent_true_revoked_epoch_certhold :
    (∀ (db : MySqlCerts) (certnum : String) (now : GeneralizedTime),
        (∀ p ∈ db, p.1 ≠ certnum) →
        mysqlCheckCert db certnum true now =
          Except.ok ⟨CertStatusCode.revoked,
            some ⟨⟨1970, 1, 1, 0, 0, 0⟩, some CrlReason.ocspRevokeCertHold⟩⟩) ∧
    (∀ (db : PgCerts) (certnum : String) (now : GeneralizedTime),
        (∀ p ∈ db, p.1 ≠ certnum) →
        pgCheckCert db certnum true now =
          Except.ok ⟨CertStatusCode.revoked,
            some ⟨⟨1970, 1, 1, 0, 0, 0⟩, some CrlReason.ocspRevokeCertHold⟩⟩) := by
  constructor
  · intro db certnum now h
    unfold mysqlCheckCert
    rw [mysqlSelect_eq_nil_of_absent db certnum h]
    rfl
  · intro db certnum now h
    unfold pgCheckCert
    rw [pgSelect_eq_nil_of_absent db certnum h]
    rfl

/-- Witness for C1 at the empty table and serial "ABC123". -/
theorem checkCert_absent_true_revoked_epoch_certhold_witness :
    mysqlCheckCert [] "ABC123" true ⟨2024, 5, 1, 12, 0, 0⟩ =
      Except.ok ⟨CertStatusCode.revoked,
        some ⟨⟨1970, 1, 1, 0, 0, 0⟩, some CrlReason.ocspRevokeCertHold⟩⟩ ∧
    pgCheckCert [] "ABC123" true ⟨2024, 5, 1, 12, 0, 0⟩ =
      Except.ok ⟨CertStatusCode.revoked,
        some ⟨⟨1970, 1, 1, 0, 0, 0⟩, some CrlReason.ocspRevokeCertHold⟩⟩ :=
  ⟨checkCert_absent_true_revoked_epoch_certhold.1 [] "ABC123" ⟨2024, 5, 1, 12, 0, 0⟩
      (fun p hp => absurd hp (List.not_mem_nil p)),
   checkCert_absent_true_revoked_epoch_certhold.2 [] "ABC123" ⟨2024, 5, 1, 12, 0, 0⟩
      (fun p hp => absurd hp (List.not_mem_nil p))⟩

/-- C2: for every certificate serial with no stored record,
`check_cert` with `assume_revoked_if_absent = false` returns Unknown on
both backends; the missing record is returned as a success, not an
error. -/
theorem checkCert_absent_false_unknown :
    (∀ (db : MySqlCerts) (certnum : String) (now : GeneralizedTime),
        (∀ p ∈ db, p.1 ≠ certnum) →
        mysqlCheckCert db certnum false now =
          Except.ok ⟨CertStatusCode.unknown, none⟩) ∧
    (∀ (db : PgCerts) (certnum : String) (now : GeneralizedTime),
        (∀ p ∈ db, p.1 ≠ certnum) →
        pgCheckCert db certnum false now =
          Except.ok ⟨CertStatusCode.unknown, none⟩) := by
  constructor
  · intro db certnum now h
    unfold mysqlCheckCert
    rw [mysqlSelect_eq_nil_of_absent db certnum h]
    rfl
  · intro db certnum now h
    unfold pgCheckCert
    rw [pgSelect_eq_nil_of_absent db certnum h]
    rfl

/-- Witness for C2 at the empty table and serial "ABC123". -/
theorem checkCert_absent_false_unknown_witness :
    mysqlCheckCert [] "ABC123" false ⟨2024, 5, 1, 12, 0, 0⟩ =
      Except.ok ⟨CertStatusCode.unknown, none⟩ ∧
    pgCheckCert [] "ABC123" false ⟨2024, 5, 1, 12, 0, 0⟩ =
      Except.ok ⟨CertStatusCode.unknown, none⟩ :=
  ⟨checkCert_absent_false_unknown.1 [] "ABC123" ⟨2024, 5, 1, 12, 0, 0⟩
      (fun p hp => absurd hp (List.not_mem_nil p)),
   checkCert_absent_false_unknown.2 [] "ABC123" ⟨2024, 5, 1, 12, 0, 0⟩
      (fun p hp => absurd hp (List.not_mem_nil p))⟩

example :
    mysqlCheckCert [] "ABC123" false ⟨2024, 5, 1, 12, 0, 0⟩ =
      Except.ok ⟨CertStatusCode.unknown, none⟩ := by rfl

example :
    pgCheckCert [("ABC123", ⟨"Revoked", some ⟨2023, 5, 1, 12, 0, 0⟩, some "key_compromise"⟩)]
      "ABC123" false ⟨2024, 5, 1, 12, 0, 0⟩ =
      Except.ok ⟨CertStatusCode.revoked,
        some ⟨⟨2023, 5, 1, 12, 0, 0⟩, some CrlReason.ocspRevokeKeyCompromise⟩⟩ := by rfl

/-- C6: for every stored record whose status string is not exactly
"Revoked" - including "Valid" and any unrecognized value - `check_cert`
returns Good, regardless of the revocation time and reason fields, on
both backends. -/
theorem checkCert_status_not_revoked_good :
    (∀ (db : MySqlCerts) (certnum : String) (revoked : Bool) (now : GeneralizedTime)
        (statut : Certinfo) (rest : List Certinfo),
        mysqlSelect db certnum = statut :: rest →
        statut.status ≠ "Revoked" →
        mysqlCheckCert db certnum revoked now =
          Except.ok ⟨CertStatusCode.good, none⟩) ∧
    (∀ (db : PgCerts) (certnum : String) (revoked : Bool) (now : GeneralizedTime)
        (row : PgCertRow) (rest : List PgCertRow),
        pgSelect db certnum = row :: rest →
        row.status ≠ "Revoked" →
        pgCheckCert db certnum revoked now =
          Except.ok ⟨CertStatusCode.good, none⟩) := by
  constructor
  · intro db certnum revoked now statut rest hsel hst
    unfold mysqlCheckCert
    rw [hsel]
    have hb : (statut.status == "Revoked") = false := beq_eq_false_iff_ne.mpr hst
    simp only [hb, Bool.false_eq_true, if_false]
    rfl
  · intro db certnum revoked now row rest hsel hst
    unfold pgCheckCert
    rw [hsel]
    have hb : (row.status == "Revoked") = false := beq_eq_false_iff_ne.mpr hst
    simp only [hb, Bool.false_eq_true, if_false]
    rfl

/-- Witness for C6: a "Valid" record with populated revocation fields
still yields Good on both backends. -/
theorem checkCert_status_not_revoked_good_witness :
    mysqlCheckCert
        [("ABC123", ⟨"Valid", some (MysqlValue.date 2023 5 1 12 0 0 0), some "key_compromise"⟩)]
        "ABC123" true ⟨2024, 5, 1, 12, 0, 0⟩ =
      Except.ok ⟨CertStatusCode.good, none⟩ ∧
    pgCheckCert
        [("ABC123", ⟨"Valid", some ⟨2023, 5, 1, 12, 0, 0⟩, some "key_compromise"⟩)]
        "ABC123" true ⟨2024, 5, 1, 12, 0, 0⟩ =
      Except.ok ⟨CertStatusCode.good, none⟩ :=
  ⟨checkCert_status_not_revoked_good.1 _ "ABC123" true ⟨2024, 5, 1, 12, 0, 0⟩
      ⟨"Valid", some (MysqlValue.date 2023 5 1 12 0 0 0), some "key_compromise"⟩ []
      rfl (by decide),
   checkCert_status_not_revoked_good.2 _ "ABC123" true ⟨2024, 5, 1, 12, 0, 0⟩
      ⟨"Valid", some ⟨2023, 5, 1, 12, 0, 0⟩, some "key_compromise"⟩ []
      rfl (by decide)⟩

/-- C7: whenever a record is found for the requested serial, the result
of `check_cert` is the same for both values of
`assume_revoked_if_absent`: the flag influences only the
missing-record branch, on both backends. -/
theorem checkCert_found_flag_independent :
    (∀ (db : MySqlCerts) (certnum : String) (now : GeneralizedTime)
        (statut : Certinfo) (rest : List Certinfo),
        mysqlSelect db certnum = statut :: rest →
        mysqlCheckCert db certnum true now = mysqlCheckCert db certnum false now) ∧
    (∀ (db : PgCerts) (certnum : String) (now : GeneralizedTime)
        (row : PgCertRow) (rest : List PgCertRow),
        pgSelect db certnum = row :: rest →
        pgCheckCert db certnum true now = pgCheckCert db certnum false now) := by
  constructor
  · intro db certnum now statut rest hsel
    unfold mysqlCheckCert
    rw [hsel]
  · intro db certnum now row rest hsel
    unfold pgCheckCert
    rw [hsel]

/-- Witness for C7 at a concrete one-row table. -/
theorem checkCert_found_flag_independent_witness :
    mysqlCheckCert [("ABC123", ⟨"Revoked", none, none⟩)] "ABC123" true ⟨2024, 5, 1, 12, 0, 0⟩ =
      mysqlCheckCert [("ABC123", ⟨"Revoked", none, none⟩)] "ABC123" false ⟨2024, 5, 1, 12, 0, 0⟩ ∧
    pgCheckCert [("ABC123", ⟨"Revoked", none, none⟩)] "ABC123" true ⟨2024, 5, 1, 12, 0, 0⟩ =
      pgCheckCert [("ABC123", ⟨"Revoked", none, none⟩)] "ABC123" false ⟨2024, 5, 1, 12, 0, 0⟩ :=
  ⟨checkCert_found_flag_independent.1 _ "ABC123" ⟨2024, 5, 1, 12, 0, 0⟩
      ⟨"Revoked", none, none⟩ [] rfl,
   checkCert_found_flag_independent.2 _ "ABC123" ⟨2024, 5, 1, 12, 0, 0⟩
      ⟨"Revoked", none, none⟩ [] rfl⟩

/-- C3: for every stored record with status "Revoked" and a
convertible revocation timestamp, `check_cert` returns Revoked whose
timestamp carries exactly the stored year, month, day, hour, minute
and second, on both backends. -/
theorem checkCert_revoked_wellformed_timestamp_exact :
    (∀ (db : MySqlCerts) (certnum : String) (revoked : Bool) (now : GeneralizedTime)
        (statut : Certinfo) (rest : List Certinfo) (y mo d h mi s ms : Nat),
        mysqlSelect db certnum = statut :: rest →
        statut.status = "Revoked" →
        statut.revocation_time = some (MysqlValue.date y mo d h mi s ms) →
        (GeneralizedTime.new (Int.ofNat y) mo d h mi s).isSome = true →
        mysqlCheckCert db certnum revoked now =
          Except.ok ⟨CertStatusCode.revoked,
            some ⟨⟨Int.ofNat y, mo, d, h, mi, s⟩,
              some (mysqlReasonOf (statut.revocation_reason.getD ""))⟩⟩) ∧
    (∀ (db : PgCerts) (certnum : String) (revoked : Bool) (now : GeneralizedTime)
        (row : PgCertRow) (rest : List PgCertRow) (rt : NaiveDateTime),
        pgSelect db certnum = row :: rest →
        row.status = "Revoked" →
        row.revocation_time = some rt →
        (GeneralizedTime.new rt.year rt.month rt.day rt.hour rt.minute rt.second).isSome = true →
        pgCheckCert db certnum revoked now =
          Except.ok ⟨CertStatusCode.revoked,
            some ⟨⟨rt.year, rt.month, rt.day, rt.hour, rt.minute, rt.second⟩,
              some (pgReasonOf (row.revocation_reason.getD ""))⟩⟩) := by
  constructor
  · intro db certnum revoked now statut rest y mo d h mi s ms hsel hst hrt hw
    obtain ⟨t, ht⟩ := Option.isSome_iff_exists.mp hw
    have hb : (statut.status == "Revoked") = true := beq_iff_eq.mpr hst
    unfold mysqlCheckCert
    rw [hsel]
    simp only [hb, if_true, hrt, ht, Option.getD_some]
    rw [gtNew_eq_some _ _ _ _ _ _ t ht]
    rfl
  · intro db certnum revoked now row rest rt hsel hst hrt hw
    obtain ⟨t, ht⟩ := Option.isSome_iff_exists.mp hw
    have hb : (row.status == "Revoked") = true := beq_iff_eq.mpr hst
    unfold pgCheckCert
    rw [hsel]
    simp only [hb, if_true, hrt, ht, Option.getD_some]
    rw [gtNew_eq_some _ _ _ _ _ _ t ht]
    rfl

/-- Witness for C3: the scenario of spec section 8 -
serial "ABC123", status "Revoked", reason "key_compromise", timestamp
2023-05-01 12:00:00 - on both backends. -/
theorem checkCert_revoked_wellformed_timestamp_exact_witness :
    mysqlCheckCert
        [("ABC123", ⟨"Revoked", some (MysqlValue.date 2023 5 1 12 0 0 0), some "key_compromise"⟩)]
        "ABC123" false ⟨2024, 5, 1, 12, 0, 0⟩ =
      Except.ok ⟨CertStatusCode.revoked,
        some ⟨⟨2023, 5, 1, 12, 0, 0⟩, some CrlReason.ocspRevokeKeyCompromise⟩⟩ ∧
    pgCheckCert
        [("ABC123", ⟨"Revoked", some ⟨2023, 5, 1, 12, 0, 0⟩, some "key_compromise"⟩)]
        "ABC123" false ⟨2024, 5, 1, 12, 0, 0⟩ =
      Except.ok ⟨CertStatusCode.revoked,
        some ⟨⟨2023, 5, 1, 12, 0, 0⟩, some CrlReason.ocspRevokeKeyCompromise⟩⟩ :=
  ⟨checkCert_revoked_wellformed_timestamp_exact.1 _ "ABC123" false ⟨2024, 5, 1, 12, 0, 0⟩
      ⟨"Revoked", some (MysqlValue.date 2023 5 1 12 0 0 0), some "key_compromise"⟩ []
      2023 5 1 12 0 0 0 rfl rfl rfl (by decide),
   checkCert_revoked_wellformed_timestamp_exact.2 _ "ABC123" false ⟨2024, 5, 1, 12, 0, 0⟩
      ⟨"Revoked", some ⟨2023, 5, 1, 12, 0, 0⟩, some "key_compromise"⟩ []
      ⟨2023, 5, 1, 12, 0, 0⟩ rfl rfl rfl (by decide)⟩

/-- C4: for every stored record with status "Revoked" whose revocation
timestamp is null or fails conversion, `check_cert` returns Revoked
whose timestamp is the wall clock at evaluation (`now`), and the
failure is returned as a success, never as an error, on both
backends. -/
theorem checkCert_revoked_bad_timestamp_now :
    (∀ (db : MySqlCerts) (certnum : String) (revoked : Bool) (now : GeneralizedTime)
        (statut : Certinfo) (rest : List Certinfo),
        mysqlSelect db certnum = statut :: rest →
        statut.status = "Revoked" →
        (statut.revocation_time = none ∨
          statut.revocation_time = some MysqlValue.other ∨
          (∃ y mo d h mi s ms,
            statut.revocation_time = some (MysqlValue.date y mo d h mi s ms) ∧
            GeneralizedTime.new (Int.ofNat y) mo d h mi s = none)) →
        mysqlCheckCert db certnum revoked now =
          Except.ok ⟨CertStatusCode.revoked,
            some ⟨now, some (mysqlReasonOf (statut.revocation_reason.getD ""))⟩⟩) ∧
    (∀ (db : PgCerts) (certnum : String) (revoked : Bool) (now : GeneralizedTime)
        (row : PgCertRow) (rest : List PgCertRow),
        pgSelect db certnum = row :: rest →
        row.status = "Revoked" →
        (row.revocation_time = none ∨
          (∃ rt, row.revocation_time = some rt ∧
            GeneralizedTime.new rt.year rt.month rt.day rt.hour rt.minute rt.second = none)) →
        pgCheckCert db certnum revoked now =
          Except.ok ⟨CertStatusCode.revoked,
            some ⟨now, some (pgReasonOf (row.revocation_reason.getD ""))⟩⟩) := by
  constructor
  · intro db certnum revoked now statut rest hsel hst hbad
    have hb : (statut.status == "Revoked") = true := beq_iff_eq.mpr hst
    unfold mysqlCheckCert
    rw [hsel]
    rcases hbad with hrt | hrt | ⟨y, mo, d, h, mi, s, ms, hrt, hfail⟩
    · simp only [hb, if_true, hrt, Option.getD_some]
      rfl
    · simp only [hb, if_true, hrt, Option.getD_some]
      rfl
    · simp only [hb, if_true, hrt, hfail, Option.getD_none]
      rfl
  · intro db certnum revoked now row rest hsel hst hbad
    have hb : (row.status == "Revoked") = true := beq_iff_eq.mpr hst
    unfold pgCheckCert
    rw [hsel]
    rcases hbad with hrt | ⟨rt, hrt, hfail⟩
    · simp only [hb, if_true, hrt]
      rfl
    · simp only [hb, if_true, hrt, hfail, Option.getD_none]
      rfl

/-- Witness for C4: a null MySQL timestamp and an inconvertible
PostgreSQL timestamp (February 30) both resolve to the wall clock. -/
theorem checkCert_revoked_bad_timestamp_now_witness :
    mysqlCheckCert [("ABC123", ⟨"Revoked", none, none⟩)] "ABC123" false ⟨2024, 5, 1, 12, 0, 0⟩ =
      Except.ok ⟨CertStatusCode.revoked,
        some ⟨⟨2024, 5, 1, 12, 0, 0⟩, some CrlReason.ocspRevokeUnspecified⟩⟩ ∧
    pgCheckCert [("ABC123", ⟨"Revoked", some ⟨2023, 2, 30, 12, 0, 0⟩, none⟩)]
        "ABC123" false ⟨2024, 5, 1, 12, 0, 0⟩ =
      Except.ok ⟨CertStatusCode.revoked,
        some ⟨⟨2024, 5, 1, 12, 0, 0⟩, some CrlReason.ocspRevokeUnspecified⟩⟩ :=
  ⟨checkCert_revoked_bad_timestamp_now.1 _ "ABC123" false ⟨2024, 5, 1, 12, 0, 0⟩
      ⟨"Revoked", none, none⟩ [] rfl rfl (Or.inl rfl),
   checkCert_revoked_bad_timestamp_now.2 _ "ABC123" false ⟨2024, 5, 1, 12, 0, 0⟩
      ⟨"Revoked", some ⟨2023, 2, 30, 12, 0, 0⟩, none⟩ [] rfl rfl
      (Or.inr ⟨⟨2023, 2, 30, 12, 0, 0⟩, rfl, by decide⟩)⟩

/-- C5: the revocation-reason mapping is total with exact,
case-sensitive matching: each of the eight named reason strings maps
to its protocol code, and every other string - including the empty
string produced by `unwrap_or_default()` for an absent (null) reason -
maps to the unspecified code, identically on both backends. -/
theorem reasonOf_total_exact :
    (mysqlReasonOf "key_compromise" = CrlReason.ocspRevokeKeyCompromise ∧
     mysqlReasonOf "ca_compromise" = CrlReason.ocspRevokeCaCompromise ∧
     mysqlReasonOf "affiliation_changed" = CrlReason.ocspRevokeAffChanged ∧
     mysqlReasonOf "superseded" = CrlReason.ocspRevokeSuperseded ∧
     mysqlReasonOf "cessation_of_operation" = CrlReason.ocspRevokeCessOperation ∧
     mysqlReasonOf "certificate_hold" = CrlReason.ocspRevokeCertHold ∧
     mysqlReasonOf "privilege_withdrawn" = CrlReason.ocspRevokePrivWithdrawn ∧
     mysqlReasonOf "aa_compromise" = CrlReason.ocspRevokeAaCompromise ∧
     pgReasonOf "key_compromise" = CrlReason.ocspRevokeKeyCompromise ∧
     pgReasonOf "ca_compromise" = CrlReason.ocspRevokeCaCompromise ∧
     pgReasonOf "affiliation_changed" = CrlReason.ocspRevokeAffChanged ∧
     pgReasonOf "superseded" = CrlReason.ocspRevokeSuperseded ∧
     pgReasonOf "cessation_of_operation" = CrlReason.ocspRevokeCessOperation ∧
     pgReasonOf "certificate_hold" = CrlReason.ocspRevokeCertHold ∧
     pgReasonOf "privilege_withdrawn" = CrlReason.ocspRevokePrivWithdrawn ∧
     pgReasonOf "aa_compromise" = CrlReason.ocspRevokeAaCompromise) ∧
    (∀ s : String, s ∉ reasonStrings →
        mysqlReasonOf s = CrlReason.ocspRevokeUnspecified ∧
        pgReasonOf s = CrlReason.ocspRevokeUnspecified) := by
  constructor
  · decide
  · intro s hs
    simp only [reasonStrings, List.mem_cons, List.not_mem_nil, or_false, not_or] at hs
    constructor
    · unfold mysqlReasonOf
      split <;> simp_all
    · unfold pgReasonOf
      split <;> simp_all

/-- Witness for C5: case-sensitivity ("KEY_COMPROMISE" is not matched)
and the empty string both land on the unspecified code. -/
theorem reasonOf_total_exact_witness :
    mysqlReasonOf "KEY_COMPROMISE" = CrlReason.ocspRevokeUnspecified ∧
    pgReasonOf "" = CrlReason.ocspRevokeUnspecified :=
  ⟨(reasonOf_total_exact.2 "KEY_COMPROMISE" (by decide)).1,
   (reasonOf_total_exact.2 "" (by decide)).2⟩

/-- A name absent from a list is not `contains`-found. -/
theorem contains_eq_false_of_not_mem (l : List String) (a : String) (h : a ∉ l) :
    l.contains a = false := by
  simp [List.elem_iff, h]

/-- A name present in a list is `contains`-found. -/
theorem contains_eq_true_of_mem (l : List String) (a : String) (h : a ∈ l) :
    l.contains a = true := by
  simp [List.elem_iff, h]

/-- Filtering for a name absent from a list yields nothing. -/
theorem filter_beq_eq_nil_of_not_mem (l : List String) (a : String) (h : a ∉ l) :
    l.filter (fun t => t == a) = [] := by
  simp only [List.filter_eq_nil_iff]
  intro t ht
  simp only [beq_iff_eq]
  intro hta
  exact h (hta ▸ ht)

/-- Filtering for a name present in a list yields a nonempty result. -/
theorem filter_beq_isEmpty_false_of_mem (l : List String) (a : String) (h : a ∈ l) :
    (l.filter (fun t => t == a)).isEmpty = false := by
  have hmem : a ∈ l.filter (fun t => t == a) := List.mem_filter.mpr ⟨h, by simp⟩
  rcases hf : l.filter (fun t => t == a) with _ | ⟨x, xs⟩
  · rw [hf] at hmem
    cases hmem
  · rfl

/-- MySQL provisioning with the flag off is a no-op success. -/
theorem mysqlCreate_flag_off (st : MySqlState) :
    mysqlCreateTablesIfNeeded false st = (Except.ok (), st) := rfl

/-- MySQL provisioning when `list_certs` already exists returns success
and leaves the state unchanged. -/
theorem mysqlCreate_table_present (ct : Bool) (st : MySqlState)
    (h : "list_certs" ∈ st.tables) :
    mysqlCreateTablesIfNeeded ct st = (Except.ok (), st) := by
  cases ct with
  | false => rfl
  | true =>
      unfold mysqlCreateTablesIfNeeded
      have h1 : (st.tables.filter (fun t => t == "list_certs")).isEmpty = false :=
        filter_beq_isEmpty_false_of_mem _ _ h
      simp [h1]

/-- MySQL provisioning when `list_certs` does not exist creates exactly
that table and succeeds. -/
theorem mysqlCreate_table_absent (st : MySqlState)
    (h : "list_certs" ∉ st.tables) :
    mysqlCreateTablesIfNeeded true st =
      (Except.ok (), ⟨st.tables ++ ["list_certs"], st.certs⟩) := by
  unfold mysqlCreateTablesIfNeeded
  have h1 : st.tables.filter (fun t => t == "list_certs") = [] :=
    filter_beq_eq_nil_of_not_mem _ _ h
  have h2 : st.tables.contains "list_certs" = false :=
    contains_eq_false_of_not_mem _ _ h
  simp [h1, h2, h]

/-- PostgreSQL provisioning with the flag off is a no-op success. -/
theorem pgCreate_flag_off (st : PgState) :
    pgCreateTablesIfNeeded false st = (Except.ok (), st) := rfl

/-- PostgreSQL provisioning when `ocsp_list_certs` already exists
returns success and leaves the state unchanged. -/
theorem pgCreate_table_present (ct : Bool) (st : PgState)
    (h : "ocsp_list_certs" ∈ st.tables) :
    pgCreateTablesIfNeeded ct st = (Except.ok (), st) := by
  cases ct with
  | false => rfl
  | true =>
      unfold pgCreateTablesIfNeeded
      have h1 : st.tables.contains "ocsp_list_certs" = true :=
        contains_eq_true_of_mem _ _ h
      simp [h1, h]

/-- PostgreSQL provisioning from a state with both types but not the
table creates exactly the table and succeeds (tolerated
partially-provisioned state). -/
theorem pgCreate_types_present_table_absent (st : PgState)
    (hnt : "ocsp_list_certs" ∉ st.tables) (hty : "cert_status" ∈ st.types)
    (hre : "revocation_reason_enum" ∈ st.types) :
    pgCreateTablesIfNeeded true st =
      (Except.ok (), ⟨st.tables ++ ["ocsp_list_certs"], st.types, st.certs⟩) := by
  unfold pgCreateTablesIfNeeded
  have h1 : st.tables.contains "ocsp_list_certs" = false :=
    contains_eq_false_of_not_mem _ _ hnt
  have h2 : st.types.contains "cert_status" = true :=
    contains_eq_true_of_mem _ _ hty
  have h3 : st.types.contains "revocation_reason_enum" = true :=
    contains_eq_true_of_mem _ _ hre
  simp [h1, h2, h3, hnt, hty, hre]

/-- PostgreSQL provisioning from the partial state where `cert_status`
exists but `revocation_reason_enum` does not: the type batch is
skipped, and `CREATE TABLE` fails because its `revocation_reason`
column references the missing type; the state is unchanged. -/
theorem pgCreate_missing_reason_type_fails (st : PgState)
    (hnt : "ocsp_list_certs" ∉ st.tables) (hty : "cert_status" ∈ st.types)
    (hre : "revocation_reason_enum" ∉ st.types) :
    pgCreateTablesIfNeeded true st =
      (Except.error "referenced type does not exist", st) := by
  unfold pgCreateTablesIfNeeded
  have h1 : st.tables.contains "ocsp_list_certs" = false :=
    contains_eq_false_of_not_mem _ _ hnt
  have h2 : st.types.contains "cert_status" = true :=
    contains_eq_true_of_mem _ _ hty
  have h3 : st.types.contains "revocation_reason_enum" = false :=
    contains_eq_false_of_not_mem _ _ hre
  simp [h1, h2, h3, hnt, hty, hre]

/-- PostgreSQL provisioning from a state with neither the table nor
either type creates both types and the table and succeeds. -/
theorem pgCreate_fresh (st : PgState)
    (hnt : "ocsp_list_certs" ∉ st.tables) (hc : "cert_status" ∉ st.types)
    (hr : "revocation_reason_enum" ∉ st.types) :
    pgCreateTablesIfNeeded true st =
      (Except.ok (), ⟨st.tables ++ ["ocsp_list_certs"],
        st.types ++ ["cert_status", "revocation_reason_enum"], st.certs⟩) := by
  unfold pgCreateTablesIfNeeded
  have h1 : st.tables.contains "ocsp_list_certs" = false :=
    contains_eq_false_of_not_mem _ _ hnt
  have h2 : st.types.contains "cert_status" = false :=
    contains_eq_false_of_not_mem _ _ hc
  have h3 : st.types.contains "revocation_reason_enum" = false :=
    contains_eq_false_of_not_mem _ _ hr
  simp [h1, h2, h3, hnt, hc, hr]

/-- PostgreSQL provisioning from the partial state where
`revocation_reason_enum` exists but `cert_status` does not: the type
batch fails (rolled back) and the state is unchanged. -/
theorem pgCreate_partial_types_fails (st : PgState)
    (hnt : "ocsp_list_certs" ∉ st.tables) (hc : "cert_status" ∉ st.types)
    (hr : "revocation_reason_enum" ∈ st.types) :
    pgCreateTablesIfNeeded true st = (Except.error "type already exists", st) := by
  unfold pgCreateTablesIfNeeded
  have h1 : st.tables.contains "ocsp_list_certs" = false :=
    contains_eq_false_of_not_mem _ _ hnt
  have h2 : st.types.contains "cert_status" = false :=
    contains_eq_false_of_not_mem _ _ hc
  have h3 : st.types.contains "revocation_reason_enum" = true :=
    contains_eq_true_of_mem _ _ hr
  simp [h1, h2, h3, hnt, hc, hr]

/-- C8 counterexample: in the partially-provisioned PostgreSQL state
where the `revocation_reason_enum` type exists but `cert_status` does
not, the type-creation batch errors, and so does a second invocation
in succession; symmetrically, where `cert_status` exists but
`revocation_reason_enum` does not, the type batch is skipped and
`CREATE TABLE` errors on the missing referenced type, twice in
succession - refuting "for every backend state, invoking the
provisioning operation twice in succession never returns an error". -/
theorem createTables_idempotent_counterexample :
    (pgCreateTablesIfNeeded true ⟨[], ["revocation_reason_enum"], []⟩).1 =
        Except.error "type already exists" ∧
    (pgCreateTablesIfNeeded true
        (pgCreateTablesIfNeeded true ⟨[], ["revocation_reason_enum"], []⟩).2).1 =
        Except.error "type already exists" ∧
    (pgCreateTablesIfNeeded true ⟨[], ["cert_status"], []⟩).1 =
        Except.error "referenced type does not exist" ∧
    (pgCreateTablesIfNeeded true
        (pgCreateTablesIfNeeded true ⟨[], ["cert_status"], []⟩).2).1 =
        Except.error "referenced type does not exist" :=
  ⟨rfl, rfl, rfl, rfl⟩

/-- C8 (amended): schema provisioning never drops or alters existing
schema objects (state only grows by appended names, stored rows are
untouched) and, when the relation already exists, returns success with
no side effects; invoking it twice in succession never errors and the
second invocation changes nothing - unconditionally on the MySQL
backend, and on the PostgreSQL backend for every state in which the
two enumerated types either both exist or are both absent. -/
theorem createTables_idempotent_amended :
    (∀ (ct : Bool) (st : MySqlState),
        (mysqlCreateTablesIfNeeded ct st).1 = Except.ok () ∧
        (mysqlCreateTablesIfNeeded ct (mysqlCreateTablesIfNeeded ct st).2).1 = Except.ok () ∧
        (mysqlCreateTablesIfNeeded ct (mysqlCreateTablesIfNeeded ct st).2).2 =
          (mysqlCreateTablesIfNeeded ct st).2 ∧
        (∃ l, (mysqlCreateTablesIfNeeded ct st).2.tables = st.tables ++ l) ∧
        (mysqlCreateTablesIfNeeded ct st).2.certs = st.certs ∧
        ("list_certs" ∈ st.tables → (mysqlCreateTablesIfNeeded ct st).2 = st)) ∧
    (∀ (ct : Bool) (st : PgState),
        ("revocation_reason_enum" ∈ st.types ↔ "cert_status" ∈ st.types) →
        (pgCreateTablesIfNeeded ct st).1 = Except.ok () ∧
        (pgCreateTablesIfNeeded ct (pgCreateTablesIfNeeded ct st).2).1 = Except.ok () ∧
        (pgCreateTablesIfNeeded ct (pgCreateTablesIfNeeded ct st).2).2 =
          (pgCreateTablesIfNeeded ct st).2 ∧
        (∃ l, (pgCreateTablesIfNeeded ct st).2.tables = st.tables ++ l) ∧
        (∃ l, (pgCreateTablesIfNeeded ct st).2.types = st.types ++ l) ∧
        (pgCreateTablesIfNeeded ct st).2.certs = st.certs ∧
        ("ocsp_list_certs" ∈ st.tables → (pgCreateTablesIfNeeded ct st).2 = st)) := by
  constructor
  · intro ct st
    by_cases hm : "list_certs" ∈ st.tables
    · have e := mysqlCreate_table_present ct st hm
      exact ⟨by simp [e], by simp [e], by simp [e], ⟨[], by simp [e]⟩, by simp [e],
        fun _ => by simp [e]⟩
    · cases ct with
      | false =>
          have e := mysqlCreate_flag_off st
          exact ⟨by simp [e], by simp [e], by simp [e], ⟨[], by simp [e]⟩, by simp [e],
            fun _ => by simp [e]⟩
      | true =>
          have e := mysqlCreate_table_absent st hm
          have hm1 : "list_certs" ∈
              (⟨st.tables ++ ["list_certs"], st.certs⟩ : MySqlState).tables := by simp
          have e2 := mysqlCreate_table_present true _ hm1
          exact ⟨by simp [e], by simp [e, e2], by simp [e, e2],
            ⟨["list_certs"], by simp [e]⟩, by simp [e],
            fun hmem => absurd hmem hm⟩
  · intro ct st hyp
    by_cases hm : "ocsp_list_certs" ∈ st.tables
    · have e := pgCreate_table_present ct st hm
      exact ⟨by simp [e], by simp [e], by simp [e], ⟨[], by simp [e]⟩, ⟨[], by simp [e]⟩,
        by simp [e], fun _ => by simp [e]⟩
    · cases ct with
      | false =>
          have e := pgCreate_flag_off st
          exact ⟨by simp [e], by simp [e], by simp [e], ⟨[], by simp [e]⟩, ⟨[], by simp [e]⟩,
            by simp [e], fun _ => by simp [e]⟩
      | true =>
          by_cases hty : "cert_status" ∈ st.types
          · have hre : "revocation_reason_enum" ∈ st.types := hyp.mpr hty
            have e := pgCreate_types_present_table_absent st hm hty hre
            have hm1 : "ocsp_list_certs" ∈
                (⟨st.tables ++ ["ocsp_list_certs"], st.types, st.certs⟩ : PgState).tables := by
              simp
            have e2 := pgCreate_table_present true _ hm1
            exact ⟨by simp [e], by simp [e, e2], by simp [e, e2],
              ⟨["ocsp_list_certs"], by simp [e]⟩, ⟨[], by simp [e]⟩, by simp [e],
              fun hmem => absurd hmem hm⟩
          · have hr : "revocation_reason_enum" ∉ st.types := fun hmem => hty (hyp.mp hmem)
            have e := pgCreate_fresh st hm hty hr
            have hm1 : "ocsp_list_certs" ∈
                (⟨st.tables ++ ["ocsp_list_certs"],
                  st.types ++ ["cert_status", "revocation_reason_enum"],
                  st.certs⟩ : PgState).tables := by simp
            have e2 := pgCreate_table_present true _ hm1
            exact ⟨by simp [e], by simp [e, e2], by simp [e, e2],
              ⟨["ocsp_list_certs"], by simp [e]⟩,
              ⟨["cert_status", "revocation_reason_enum"], by simp [e]⟩, by simp [e],
              fun hmem => absurd hmem hm⟩

/-- Witness for the amended C8 at the empty schema state. -/
theorem createTables_idempotent_amended_witness :
    (mysqlCreateTablesIfNeeded true ⟨[], []⟩).1 = Except.ok () ∧
    (pgCreateTablesIfNeeded true ⟨[], [], []⟩).1 = Except.ok () :=
  ⟨(createTables_idempotent_amended.1 true ⟨[], []⟩).1,
   (createTables_idempotent_amended.2 true ⟨[], [], []⟩ (by simp)).1⟩

/-- A row keyed by the requested serial makes the MySQL SELECT
nonempty. -/
theorem mysqlSelect_ne_nil_of_mem (db : MySqlCerts) (certnum : String)
    (p : String × Certinfo) (hp : p ∈ db) (heq : p.1 = certnum) :
    mysqlSelect db certnum ≠ [] := by
  intro hnil
  have hmem : p.2 ∈ mysqlSelect db certnum :=
    List.mem_map_of_mem Prod.snd (List.mem_filter.mpr ⟨hp, by simp [heq]⟩)
  rw [hnil] at hmem
  cases hmem

/-- A row keyed by the requested serial makes the PostgreSQL query
nonempty. -/
theorem pgSelect_ne_nil_of_mem (db : PgCerts) (certnum : String)
    (p : String × PgCertRow) (hp : p ∈ db) (heq : p.1 = certnum) :
    pgSelect db certnum ≠ [] := by
  intro hnil
  have hmem : p.2 ∈ pgSelect db certnum :=
    List.mem_map_of_mem Prod.snd (List.mem_filter.mpr ⟨hp, by simp [heq]⟩)
  rw [hnil] at hmem
  cases hmem

/-- C9 counterexample: the 51-character serial `longSerial` is neither
rejected (the call succeeds) nor truncated to the 50-character column
width (it does not match a row keyed by its 50-character truncation,
yet matches a row keyed by the full 51-character string), on both
backends. -/
theorem serial_overlong_counterexample :
    longSerial.length = 51 ∧
    mysqlCheckCert [(longSerialTrunc, ⟨"Revoked", none, none⟩)] longSerial false
        ⟨2024, 5, 1, 12, 0, 0⟩ = Except.ok ⟨CertStatusCode.unknown, none⟩ ∧
    mysqlCheckCert [(longSerial, ⟨"Valid", none, none⟩)] longSerial false
        ⟨2024, 5, 1, 12, 0, 0⟩ = Except.ok ⟨CertStatusCode.good, none⟩ ∧
    pgCheckCert [(longSerialTrunc, ⟨"Revoked", none, none⟩)] longSerial false
        ⟨2024, 5, 1, 12, 0, 0⟩ = Except.ok ⟨CertStatusCode.unknown, none⟩ ∧
    pgCheckCert [(longSerial, ⟨"Valid", none, none⟩)] longSerial false
        ⟨2024, 5, 1, 12, 0, 0⟩ = Except.ok ⟨CertStatusCode.good, none⟩ :=
  ⟨by decide, rfl, rfl, rfl, rfl⟩

/-- C9 (amended): `check_cert` applies no length policy to the serial:
an over-long serial is never rejected (the call returns a success on
every table state) and is passed to the lookup unchanged - with the
flag false the result is Unknown precisely when no row is keyed by the
full, untruncated serial - on both backends. -/
theorem serial_overlong_passthrough_amended :
    (∀ (db : MySqlCerts) (certnum : String) (revoked : Bool) (now : GeneralizedTime),
        50 < certnum.length →
        (∃ v, mysqlCheckCert db certnum revoked now = Except.ok v) ∧
        (mysqlCheckCert db certnum false now = Except.ok ⟨CertStatusCode.unknown, none⟩ ↔
          ∀ p ∈ db, p.1 ≠ certnum)) ∧
    (∀ (db : PgCerts) (certnum : String) (revoked : Bool) (now : GeneralizedTime),
        50 < certnum.length →
        (∃ v, pgCheckCert db certnum revoked now = Except.ok v) ∧
        (pgCheckCert db certnum false now = Except.ok ⟨CertStatusCode.unknown, none⟩ ↔
          ∀ p ∈ db, p.1 ≠ certnum)) := by
  constructor
  · intro db certnum revoked now _
    constructor
    · unfold mysqlCheckCert
      rcases mysqlSelect db certnum with _ | ⟨a, rest⟩
      · cases revoked <;> exact ⟨_, rfl⟩
      · cases hb : a.status == "Revoked" <;> simp [hb]
    · constructor
      · intro hres p hp hpeq
        have hnn := mysqlSelect_ne_nil_of_mem db certnum p hp hpeq
        rcases hsel : mysqlSelect db certnum with _ | ⟨a, rest⟩
        · exact hnn hsel
        · unfold mysqlCheckCert at hres
          rw [hsel] at hres
          by_cases hst : a.status = "Revoked" <;>
            simp [hst, OcspCertStatus.new] at hres
      · intro h
        unfold mysqlCheckCert
        rw [mysqlSelect_eq_nil_of_absent db certnum h]
        rfl
  · intro db certnum revoked now _
    constructor
    · unfold pgCheckCert
      rcases pgSelect db certnum with _ | ⟨a, rest⟩
      · cases revoked <;> exact ⟨_, rfl⟩
      · cases hb : a.status == "Revoked" <;> simp [hb]
    · constructor
      · intro hres p hp hpeq
        have hnn := pgSelect_ne_nil_of_mem db certnum p hp hpeq
        rcases hsel : pgSelect db certnum with _ | ⟨a, rest⟩
        · exact hnn hsel
        · unfold pgCheckCert at hres
          rw [hsel] at hres
          by_cases hst : a.status = "Revoked" <;>
            simp [hst, OcspCertStatus.new] at hres
      · intro h
        unfold pgCheckCert
        rw [pgSelect_eq_nil_of_absent db certnum h]
        rfl

/-- Witness for the amended C9 at the 51-character serial and the
empty table. -/
theorem serial_overlong_passthrough_amended_witness :
    (∃ v, mysqlCheckCert [] longSerial true ⟨2024, 5, 1, 12, 0, 0⟩ = Except.ok v) ∧
    (∃ v, pgCheckCert [] longSerial true ⟨2024, 5, 1, 12, 0, 0⟩ = Except.ok v) :=
  ⟨(serial_overlong_passthrough_amended.1 [] longSerial true ⟨2024, 5, 1, 12, 0, 0⟩
      (by decide)).1,
   (serial_overlong_passthrough_amended.2 [] longSerial true ⟨2024, 5, 1, 12, 0, 0⟩
      (by decide)).1⟩

/-- C10: `check_cert` never modifies the stored certificate records:
its statement trace is the single parameterized SELECT, a read-only
statement, so executing the trace leaves every database state exactly
as it was, on both backends. -/
theorem checkCert_readonly :
    (∀ (st : MySqlState) (certnum : String),
        (mysqlCheckCertStmts certnum).foldl mysqlRunStmt st = st ∧
        ∀ q ∈ mysqlCheckCertStmts certnum, q.isWriteStmt = false) ∧
    (∀ (st : PgState) (certnum : String),
        (pgCheckCertStmts certnum).foldl pgRunStmt st = st ∧
        ∀ q ∈ pgCheckCertStmts certnum, q.isWriteStmt = false) := by
  constructor
  · intro st certnum
    refine ⟨rfl, ?_⟩
    intro q hq
    cases hq with
    | head => rfl
    | tail _ htail => cases htail
  · intro st certnum
    refine ⟨rfl, ?_⟩
    intro q hq
    cases hq with
    | head => rfl
    | tail _ htail => cases htail

/-- Witness for C10 at a concrete schema state and serial. -/
theorem checkCert_readonly_witness :
    (mysqlCheckCertStmts "ABC123").foldl mysqlRunStmt ⟨["list_certs"], []⟩ =
      (⟨["list_certs"], []⟩ : MySqlState) ∧
    (MySqlStmt.selectCert "ABC123").isWriteStmt = false ∧
    (pgCheckCertStmts "ABC123").foldl pgRunStmt ⟨["ocsp_list_certs"], ["cert_status"], []⟩ =
      (⟨["ocsp_list_certs"], ["cert_status"], []⟩ : PgState) ∧
    (PgStmt.selectCert "ABC123").isWriteStmt = false :=
  ⟨(checkCert_readonly.1 ⟨["list_certs"], []⟩ "ABC123").1,
   (checkCert_readonly.1 ⟨["list_certs"], []⟩ "ABC123").2 _ (List.mem_cons_self _ _),
   (checkCert_readonly.2 ⟨["ocsp_list_certs"], ["cert_status"], []⟩ "ABC123").1,
   (checkCert_readonly.2 ⟨["ocsp_list_certs"], ["cert_status"], []⟩ "ABC123").2 _
     (List.mem_cons_self _ _)⟩
